import Mathlib

/-!
Shallow embedding of the bevy_replicon_matchbox transport/session layer
(src/client.rs, src/server.rs) and verification of its specification claims.

Peer identifiers, entities and bytes are modelled as natural numbers;
the socket is modelled by its observable interface (peer-state updates,
channel availability); Bevy systems become pure functions from driver
state and inputs to updated state plus an ordered list of emitted effects.
-/

namespace RepliconMatchbox

/-- Peer identifiers are opaque socket-assigned ids (matchbox PeerId). -/
abbrev PeerId := Nat

/-- Bevy entity ids, used as connection handles on the host side. -/
abbrev Entity := Nat

/-- Peer state reported by the socket (bevy_matchbox PeerState). -/
inductive PeerState where
  | Connected
  | Disconnected
deriving DecidableEq, BEq

/-- The three control messages of the system channel
(SystemChannelMessage in the shared module, used in src/client.rs and
src/server.rs). -/
inductive SystemChannelMessage where
  | ConnectedToHost
  | HostRequestsDisconnect
  | ClientDisconnects
deriving DecidableEq, BEq

/-- Client session state (bevy_replicon ClientState). -/
inductive ClientState where
  | Connecting
  | Connected
  | Disconnected
deriving DecidableEq, BEq

/-- Server session state (bevy_replicon ServerState). -/
inductive ServerState where
  | Running
  | Stopped
deriving DecidableEq, BEq

/-- Result of MatchboxSocket.try_update_peers: a fatal error, or the list
of peer state changes. -/
inductive PeersResult where
  | fatal
  | ok (peers : List (PeerId × PeerState))
deriving DecidableEq

/-- Modelled from the spec: the shared module (which defines
SYSTEM_CHANNEL_ID) is not under src/. Spec section 4.2: control messages
are sent only on the reserved control channel, index 0. -/
def SYSTEM_CHANNEL_ID : Nat := 0

/-- Socket channel a client receives a host-to-client logical channel on:
src/client.rs line 119, socket_channel_id = 1 + channel_id. -/
def client_recv_socket_channel (channel_id : Nat) : Nat :=
  1 + channel_id

/-- Socket channel a client sends a client-to-host logical channel on:
src/client.rs line 152, socket_channel_id =
1 + channels.server_channels().len() + channel_id. -/
def client_send_socket_channel (server_channels_len channel_id : Nat) : Nat :=
  1 + server_channels_len + channel_id

/-- Socket channel the host receives a client-to-host logical channel on:
src/server.rs line 142, socket_channel_id =
1 + channels.server_channels().len() + channel_id. -/
def server_recv_socket_channel (server_channels_len channel_id : Nat) : Nat :=
  1 + server_channels_len + channel_id

/-- Socket channel the host sends a host-to-client logical channel on:
src/server.rs line 174, socket_channel_id = 1 + channel_id. -/
def server_send_socket_channel (channel_id : Nat) : Nat :=
  1 + channel_id

/-- A logical channel: the control channel, the i-th host-to-client
channel, or the j-th client-to-host channel. -/
inductive LogicalChannel where
  | control
  | hostToClient (i : Nat)
  | clientToHost (j : Nat)
deriving DecidableEq, BEq

/-- Validity of a logical channel given S host-to-client and
C client-to-host logical channels. -/
def validChannel (S C : Nat) : LogicalChannel → Prop
  | .control => True
  | .hostToClient i => i < S
  | .clientToHost j => j < C

/-- The socket channel index the host role uses for a logical channel:
index 0 for control, the send index for host-to-client channels, the
receive index for client-to-host channels. -/
def hostChannelIndex (S : Nat) : LogicalChannel → Nat
  | .control => SYSTEM_CHANNEL_ID
  | .hostToClient i => server_send_socket_channel i
  | .clientToHost j => server_recv_socket_channel S j

/-- The socket channel index the client role uses for a logical channel:
index 0 for control, the receive index for host-to-client channels, the
send index for client-to-host channels. -/
def clientChannelIndex (S : Nat) : LogicalChannel → Nat
  | .control => SYSTEM_CHANNEL_ID
  | .hostToClient i => client_recv_socket_channel i
  | .clientToHost j => client_send_socket_channel S j

/-- Modelled from the spec: the shared module defining the framing marker
byte is not under src/. Spec section 4.1: a fixed one-byte,
non-informational marker. -/
def FRAME_MARKER : Nat := 0

/-- Modelled from the spec: the shared module defining add_marker (the
spec's frame_payload) is not under src/. Spec section 4.1: prepends a
fixed one-byte, non-informational marker to every outbound payload. -/
def add_marker (b : List Nat) : List Nat :=
  FRAME_MARKER :: b

/-- Modelled from the spec: the shared module defining strip_marker (the
spec's unframe_payload) is not under src/. Spec section 4.1: strips
exactly one leading byte and returns the remainder. -/
def strip_marker (b : List Nat) : List Nat :=
  b.drop 1

/-- Observable side effects emitted by the drivers, in program order:
entity spawns and despawns, control-channel sends, data-channel sends,
and removals of a peer's entry from the host registry. -/
inductive Event where
  | spawn (e : Entity) (peer : PeerId) (network_id : Nat)
  | despawn (e : Entity)
  | sendCtl (m : SystemChannelMessage) (peer : PeerId)
  | sendData (socket_channel : Nat) (payload : List Nat) (peer : PeerId)
  | removeEntry (peer : PeerId)
deriving DecidableEq, BEq

/-- The MatchboxClient resource (src/client.rs lines 167-172), together
with the two socket observables its systems read: whether all channels
are closed and whether get_channel_mut on the system channel succeeds. -/
structure MatchboxClient where
  allChannelsClosed : Bool
  systemChannelOk : Bool
  host_peer_id : Option PeerId
  should_disconnect : Bool
deriving DecidableEq

/-- Loop body of update_peers (src/client.rs lines 59-65): scan the
reported peer updates and stop at the first peer that is Disconnected
and differs from the recorded host peer id; the system removes the
MatchboxClient resource there and returns. -/
def nonhost_disconnect_reported (host : PeerId) : List (PeerId × PeerState) → Bool
  | [] => false
  | (peer_id, state) :: rest =>
    if state = PeerState.Disconnected ∧ peer_id ≠ host then true
    else nonhost_disconnect_reported host rest

/-- The update_peers system (src/client.rs lines 50-66). The result is
none when the system removed the MatchboxClient resource, some c when
the resource c stays in place. -/
def update_peers (c : MatchboxClient) (res : PeersResult) : Option MatchboxClient :=
  match res with
  | .fatal => none
  | .ok peers =>
    match c.host_peer_id with
    | none => some c
    | some host =>
      if nonhost_disconnect_reported host peers then none else some c

/-- Dispatch of one decoded system-channel message on the client
(src/client.rs lines 90-103): ConnectedToHost records the sender as host
peer id and sets the next client state to Connected; HostRequestsDisconnect
sets the internal disconnect flag; ClientDisconnects is logged and
ignored. -/
def handleSystemMessage (c : MatchboxClient) (st : ClientState)
    (peer : PeerId) (m : SystemChannelMessage) : MatchboxClient × ClientState :=
  match m with
  | .ConnectedToHost => ({ c with host_peer_id := some peer }, .Connected)
  | .HostRequestsDisconnect => ({ c with should_disconnect := true }, st)
  | .ClientDisconnects => (c, st)

/-- Message loop of receive_system_channel_packets
(src/client.rs lines 80-104) over the already-decoded messages. -/
def systemMessageLoop (c : MatchboxClient) (st : ClientState) :
    List (PeerId × SystemChannelMessage) → MatchboxClient × ClientState
  | [] => (c, st)
  | (peer, m) :: rest =>
    let r := handleSystemMessage c st peer m
    systemMessageLoop r.1 r.2 rest

/-- The receive_system_channel_packets system (src/client.rs lines
68-105): returns unchanged when all channels are closed or the system
channel is unavailable, otherwise processes each received message in
order. Messages that fail to decode are skipped by the source, so the
input list holds the successfully decoded messages. -/
def receive_system_channel_packets (c : MatchboxClient) (st : ClientState)
    (msgs : List (PeerId × SystemChannelMessage)) : MatchboxClient × ClientState :=
  if c.allChannelsClosed then (c, st)
  else if c.systemChannelOk then systemMessageLoop c st msgs
  else (c, st)

/-- MatchboxClient.is_connected (src/client.rs lines 187-189). -/
def MatchboxClient.is_connected (c : MatchboxClient) : Bool :=
  c.host_peer_id.isSome

/-- MatchboxClient.disconnect (src/client.rs lines 191-203): if the
system channel is unavailable, return; if no host peer id is recorded,
return; otherwise send ClientDisconnects to the host and set the
internal disconnect flag. Returns the updated resource and the emitted
sends. -/
def MatchboxClient.disconnect (c : MatchboxClient) : MatchboxClient × List Event :=
  if c.systemChannelOk then
    match c.host_peer_id with
    | none => (c, [])
    | some host_peer =>
      ({ c with should_disconnect := true },
        [Event.sendCtl .ClientDisconnects host_peer])
  else (c, [])

/-- HashMap.contains_key on the registry, modelled over an association
list in insertion order. -/
def containsKey (k : PeerId) : List (PeerId × Entity) → Bool
  | [] => false
  | (k2, _) :: rest => if k2 = k then true else containsKey k rest

/-- Lookup of a key in an association list (the Query of
MatchboxClientConnection components, mapping entities to peer ids, is
modelled the same way). -/
def lookupKey (k : Nat) : List (Nat × Nat) → Option Nat
  | [] => none
  | (k2, v) :: rest => if k2 = k then some v else lookupKey k rest

/-- HashMap.remove on the registry: returns the removed value and the
remaining entries, or none when the key is absent. -/
def lookupRemove (k : PeerId) : List (PeerId × Entity) → Option (Entity × List (PeerId × Entity))
  | [] => none
  | (k2, v) :: rest =>
    if k2 = k then some (v, rest)
    else
      match lookupRemove k rest with
      | none => none
      | some (v2, rest2) => some (v2, (k2, v) :: rest2)

/-- Modelled from the spec: the shared module defining
uuid_to_u64_truncated is not under src/. Spec section 4.4: a
deterministic truncation of the peer id to a fixed-width numeric
identifier. -/
def uuid_to_u64_truncated (peer : PeerId) : Nat :=
  peer % 2 ^ 64

/-- The MatchboxHost resource (src/server.rs lines 213-218): the
peer-to-entity registry and the queue of peers pending disconnection. -/
structure MatchboxHost where
  client_entities : List (PeerId × Entity)
  clients_to_disconnect : List PeerId
deriving DecidableEq

/-- MatchboxHost.connected_clients (src/server.rs lines 235-237). -/
def MatchboxHost.connected_clients (s : MatchboxHost) : Nat :=
  s.client_entities.length

/-- MatchboxHost.disconnect_all (src/server.rs lines 239-242): extend
the pending-disconnect queue with every registered peer. -/
def MatchboxHost.disconnect_all (s : MatchboxHost) : MatchboxHost :=
  { s with clients_to_disconnect :=
      s.clients_to_disconnect ++ s.client_entities.map Prod.fst }

/-- Peer-update loop of update_client_presence (src/server.rs lines
64-99). On Connected: skip if registered, otherwise spawn an entity
(modelled by a fresh-entity counter), register it, and send
ConnectedToHost to that peer. On Disconnected: remove and despawn if
registered, else skip. Returns the updated host, the next entity
counter, and the emitted events in program order. -/
def processPeers (s : MatchboxHost) (next : Entity) :
    List (PeerId × PeerState) → MatchboxHost × Entity × List Event
  | [] => (s, next, [])
  | (peer, .Connected) :: rest =>
    if containsKey peer s.client_entities then processPeers s next rest
    else
      let s2 := { s with client_entities := s.client_entities ++ [(peer, next)] }
      let r := processPeers s2 (next + 1) rest
      (r.1, r.2.1,
        Event.spawn next peer (uuid_to_u64_truncated peer) ::
        Event.sendCtl .ConnectedToHost peer :: r.2.2)
  | (peer, .Disconnected) :: rest =>
    match lookupRemove peer s.client_entities with
    | none => processPeers s next rest
    | some (e, rest2) =>
      let r := processPeers { s with client_entities := rest2 } next rest
      (r.1, r.2.1, Event.despawn e :: r.2.2)

/-- The update_client_presence system (src/server.rs lines 54-100). On a
fatal try_update_peers error: despawn every registered entity and remove
the MatchboxHost resource (result none); otherwise process the peer
updates. -/
def update_client_presence (s : MatchboxHost) (next : Entity)
    (res : PeersResult) : Option MatchboxHost × Entity × List Event :=
  match res with
  | .fatal => (none, next, s.client_entities.map fun kv => Event.despawn kv.2)
  | .ok peers =>
    let r := processPeers s next peers
    (some r.1, r.2.1, r.2.2)

/-- Host-side world: the optional MatchboxHost resource, the fresh
entity counter, and the ServerState. -/
structure HostWorld where
  server : Option MatchboxHost
  nextEntity : Entity
  serverState : ServerState
deriving DecidableEq

/-- One presence phase of the host tick: run update_client_presence
(src/server.rs lines 54-100) when the resource exists, then apply
set_stopped (src/server.rs lines 45-48), which sets ServerState.Stopped
once the resource has been removed (registration at src/server.rs lines
37-39). -/
def hostPresenceTick (w : HostWorld) (res : PeersResult) : HostWorld × List Event :=
  match w.server with
  | none => (w, [])
  | some s =>
    let r := update_client_presence s w.nextEntity res
    let st := match r.1 with
      | none => ServerState.Stopped
      | some _ => w.serverState
    (⟨r.1, r.2.1, st⟩, r.2.2)

/-- Outbound message loop of send_packets (src/server.rs lines 159-179):
for each drained (entity, channel, payload), skip when the entity has no
connection component or its peer is no longer registered, otherwise send
the marked payload on socket channel 1 + channel to that peer. -/
def sendLoop (s : MatchboxHost) (conns : List (Entity × PeerId)) :
    List (Entity × Nat × List Nat) → List Event
  | [] => []
  | (ent, ch, msg) :: rest =>
    match lookupKey ent conns with
    | none => sendLoop s conns rest
    | some peer =>
      if containsKey peer s.client_entities then
        Event.sendData (server_send_socket_channel ch) (add_marker msg) peer ::
          sendLoop s conns rest
      else sendLoop s conns rest

/-- Disconnect-queue drain of send_packets (src/server.rs lines
180-195): for each queued peer, if still registered, remove its registry
entry, send HostRequestsDisconnect to it, and despawn its entity, in
that order. -/
def drainDisconnects (m : List (PeerId × Entity)) :
    List PeerId → List (PeerId × Entity) × List Event
  | [] => (m, [])
  | peer :: rest =>
    match lookupRemove peer m with
    | none => drainDisconnects m rest
    | some (e, m2) =>
      let r := drainDisconnects m2 rest
      (r.1,
        Event.removeEntry peer ::
        Event.sendCtl .HostRequestsDisconnect peer ::
        Event.despawn e :: r.2)

/-- The send_packets system (src/server.rs lines 153-196): send every
drained outbound message, then drain the pending-disconnect queue. -/
def send_packets (s : MatchboxHost) (conns : List (Entity × PeerId))
    (outbound : List (Entity × Nat × List Nat)) : MatchboxHost × List Event :=
  let evs1 := sendLoop s conns outbound
  let r := drainDisconnects s.client_entities s.clients_to_disconnect
  ({ client_entities := r.1, clients_to_disconnect := [] }, evs1 ++ r.2)

/-- The received_disconnect system (src/server.rs lines 198-210): for
each DisconnectRequest naming a client entity, skip if the entity has no
connection component, otherwise queue its peer for disconnection. -/
def received_disconnect (conns : List (Entity × PeerId)) :
    List Entity → MatchboxHost → MatchboxHost
  | [], s => s
  | ent :: rest, s =>
    match lookupKey ent conns with
    | none => received_disconnect conns rest s
    | some peer =>
      received_disconnect conns rest
        { s with clients_to_disconnect := s.clients_to_disconnect ++ [peer] }

/-- The events drainDisconnects emits when it disconnects every entry of
a registry, in registry order: removal, control send, despawn per
entry. -/
def disconnectEvents : List (PeerId × Entity) → List Event
  | [] => []
  | (p, e) :: rest =>
    Event.removeEntry p :: Event.sendCtl .HostRequestsDisconnect p ::
      Event.despawn e :: disconnectEvents rest

/-- The per-tick sub-steps of the two session drivers named by the
ordering claims of the spec. -/
inductive SubStep where
  | sessionStateInit
  | peerUpdate
  | controlRecv
  | dataRecv
  | disconnectQueue
  | dataSend
  | disconnectHandling
deriving DecidableEq, BEq

/-- Position of a sub-step in a tick-order list. -/
def stepIndex (s : SubStep) (l : List SubStep) : Nat :=
  l.findIdx fun x => x == s

/-- The client tick order from RepliconMatchboxClientPlugin::build
(src/client.rs lines 12-37): the PreUpdate chain runs receive_packets,
then receive_system_channel_packets, then update_peers; PostUpdate runs
send_packets, whose tail handles the internal disconnect flag
(src/client.rs lines 159-164). -/
def clientTickOrder : List SubStep :=
  [.dataRecv, .controlRecv, .peerUpdate, .dataSend, .disconnectHandling]

/-- The host tick order from RepliconMatchboxServerPlugin::build
(src/server.rs lines 13-43): the PreUpdate chain runs set_running,
receive_system_channel_packets, receive_packets, received_disconnect
(which only queues); PostUpdate runs update_client_presence, then
send_packets, whose tail drains the disconnect queue (src/server.rs
lines 180-195). -/
def serverTickOrder : List SubStep :=
  [.sessionStateInit, .controlRecv, .dataRecv, .disconnectQueue,
    .peerUpdate, .dataSend, .disconnectHandling]

/-- The order asserted by the spec: peer-state update, then
control-channel receive, then data-channel receive, then data-channel
send, then disconnect handling. -/
def specClaimedOrder (l : List SubStep) : Prop :=
  stepIndex .peerUpdate l < stepIndex .controlRecv l ∧
  stepIndex .controlRecv l < stepIndex .dataRecv l ∧
  stepIndex .dataRecv l < stepIndex .dataSend l ∧
  stepIndex .dataSend l < stepIndex .disconnectHandling l

end RepliconMatchbox

namespace RepliconMatchbox

/-- C1: for every fixed pair of channel counts, the mapping of logical
channels to socket channel indices (control to 0, host-to-client i to
1 + i, client-to-host j to 1 + S + j) is injective over valid channels,
host and client roles compute the same index for each logical channel,
and every valid channel maps inside the range below 1 + S + C. -/
theorem channel_mapping_injective_and_consistent (S C : Nat) :
    (∀ a b : LogicalChannel, validChannel S C a → validChannel S C b →
      hostChannelIndex S a = hostChannelIndex S b → a = b) ∧
    (∀ a : LogicalChannel, hostChannelIndex S a = clientChannelIndex S a) ∧
    (∀ a : LogicalChannel, validChannel S C a → hostChannelIndex S a < 1 + S + C) := by
  refine ⟨?_, ?_, ?_⟩
  · intro a b ha hb hab
    cases a <;> cases b <;>
      simp_all [hostChannelIndex, validChannel, SYSTEM_CHANNEL_ID,
        server_send_socket_channel, server_recv_socket_channel] <;>
      omega
  · intro a
    cases a <;>
      simp [hostChannelIndex, clientChannelIndex,
        server_send_socket_channel, server_recv_socket_channel,
        client_recv_socket_channel, client_send_socket_channel]
  · intro a ha
    cases a <;>
      simp_all [hostChannelIndex, validChannel, SYSTEM_CHANNEL_ID,
        server_send_socket_channel, server_recv_socket_channel]
    all_goals omega

/-- Witness for C1 at S = 2, C = 3: injectivity applied to the second
client-to-host channel, role agreement, and the range bound 5 < 6. -/
theorem channel_mapping_injective_and_consistent_witness :
    (LogicalChannel.clientToHost 2 : LogicalChannel) = .clientToHost 2 ∧
    hostChannelIndex 2 (.clientToHost 2) = clientChannelIndex 2 (.clientToHost 2) ∧
    hostChannelIndex 2 (.clientToHost 2) < 1 + 2 + 3 := by
  have h := channel_mapping_injective_and_consistent 2 3
  exact ⟨h.1 (.clientToHost 2) (.clientToHost 2)
      (by simp [validChannel]) (by simp [validChannel]) rfl,
    h.2.1 (.clientToHost 2),
    h.2.2 (.clientToHost 2) (by simp [validChannel])⟩

/-- C4: stripping the marker from a framed payload returns the original
bytes, for every byte sequence including the empty one; framing prepends
exactly the one fixed marker byte, and unframing strips exactly one
leading byte and returns the remainder. -/
theorem add_marker_strip_marker_roundtrip :
    (∀ b : List Nat, strip_marker (add_marker b) = b) ∧
    (∀ b : List Nat, add_marker b = FRAME_MARKER :: b ∧
      (add_marker b).length = b.length + 1) ∧
    (∀ (x : Nat) (rest : List Nat), strip_marker (x :: rest) = rest) := by
  refine ⟨fun b => rfl, fun b => ⟨rfl, by simp [add_marker]⟩, fun x rest => rfl⟩

/-- C2 evaluation at the failing input: with host peer id 1 recorded, a
Disconnected report for the host peer itself leaves the socket resource
in place, while a Disconnected report for the unrelated peer 2 removes
the resource. The source guard (src/client.rs line 60) tests
peer_id != host_peer_id, the reverse of the claim and of the source's
own trace message about the host disconnecting. -/
theorem update_peers_inverted_host_check :
    update_peers ⟨false, true, some 1, false⟩ (.ok [(1, .Disconnected)]) =
      some ⟨false, true, some 1, false⟩ ∧
    update_peers ⟨false, true, some 1, false⟩ (.ok [(2, .Disconnected)]) = none := by
  decide

/-- C6 counterexample: a client that already recorded host peer id 1 and
receives a further ConnectedToHost from peer 2 does not keep its state
unchanged: the recorded host peer id is overwritten with 2. -/
theorem connected_to_host_overwrites_host_peer :
    (receive_system_channel_packets ⟨false, true, some 1, false⟩ .Connected
        [(2, .ConnectedToHost)]).1.host_peer_id = some 2 ∧
    (some 2 : Option PeerId) ≠ some 1 := by
  decide

/-- C6 amended: the first ConnectedToHost transitions Connecting to
Connected and records the sender as host peer id; a further
ConnectedToHost from the recorded host peer is an idempotent no-op, but
the handler records the sender unconditionally, so one from a different
peer overwrites the recorded host peer id. -/
theorem connected_to_host_transition (c : MatchboxClient) (p : PeerId)
    (hopen : c.allChannelsClosed = false) (hch : c.systemChannelOk = true) :
    (c.host_peer_id = none →
      receive_system_channel_packets c .Connecting [(p, .ConnectedToHost)] =
        ({ c with host_peer_id := some p }, .Connected)) ∧
    (c.host_peer_id = some p →
      receive_system_channel_packets c .Connected [(p, .ConnectedToHost)] =
        (c, .Connected)) := by
  cases c
  constructor <;> intro h <;>
    simp_all [receive_system_channel_packets, systemMessageLoop, handleSystemMessage]

/-- Witness for C6 amended: a fresh client connecting to host peer 7,
then the idempotent re-delivery from the same peer 7. -/
theorem connected_to_host_transition_witness :
    receive_system_channel_packets ⟨false, true, none, false⟩ .Connecting
        [(7, .ConnectedToHost)] = (⟨false, true, some 7, false⟩, .Connected) ∧
    receive_system_channel_packets ⟨false, true, some 7, false⟩ .Connected
        [(7, .ConnectedToHost)] = (⟨false, true, some 7, false⟩, .Connected) := by
  have h1 := connected_to_host_transition ⟨false, true, none, false⟩ 7 rfl rfl
  have h2 := connected_to_host_transition ⟨false, true, some 7, false⟩ 7 rfl rfl
  exact ⟨h1.1 rfl, h2.2 rfl⟩

/-- C9: calling disconnect when no host peer id is recorded is a
complete no-op: no message is sent, the resource (disconnect flag
included) is unchanged, and is_connected returns false. -/
theorem disconnect_noop_without_host (c : MatchboxClient)
    (h : c.host_peer_id = none) :
    MatchboxClient.disconnect c = (c, []) ∧ c.is_connected = false := by
  cases c
  simp_all [MatchboxClient.disconnect, MatchboxClient.is_connected]

/-- Witness for C9: disconnect on a concrete client with no recorded
host peer is a no-op. -/
theorem disconnect_noop_without_host_witness :
    MatchboxClient.disconnect ⟨false, true, none, false⟩ =
      (⟨false, true, none, false⟩, []) ∧
    (⟨false, true, none, false⟩ : MatchboxClient).is_connected = false :=
  disconnect_noop_without_host ⟨false, true, none, false⟩ rfl

/-- C3 counterexample: neither the client tick order nor the host tick
order satisfies the order the spec asserts (peer-state update before
control receive before data receive): the client runs data receive
first and peer update third, and the host runs its peer update only in
PostUpdate, after both receive steps. -/
theorem spec_tick_order_fails :
    ¬ specClaimedOrder clientTickOrder ∧ ¬ specClaimedOrder serverTickOrder := by
  simp only [specClaimedOrder]
  decide

/-- C3 amended: the actual per-tick order. The client runs data-channel
receive, then control-channel receive, then peer-state update, then
data-channel send, then disconnect handling; the host runs control
receive, then data receive, then disconnect-request queuing, then
peer-state update, then data send, then pending-disconnect handling. In
both roles every receive step precedes the send step and disconnect
handling comes last, so the send and disconnect steps observe the
registry state established earlier in the tick. -/
theorem tick_order_actual :
    (stepIndex .dataRecv clientTickOrder < stepIndex .controlRecv clientTickOrder ∧
     stepIndex .controlRecv clientTickOrder < stepIndex .peerUpdate clientTickOrder ∧
     stepIndex .peerUpdate clientTickOrder < stepIndex .dataSend clientTickOrder ∧
     stepIndex .dataSend clientTickOrder < stepIndex .disconnectHandling clientTickOrder) ∧
    (stepIndex .controlRecv serverTickOrder < stepIndex .dataRecv serverTickOrder ∧
     stepIndex .dataRecv serverTickOrder < stepIndex .disconnectQueue serverTickOrder ∧
     stepIndex .disconnectQueue serverTickOrder < stepIndex .peerUpdate serverTickOrder ∧
     stepIndex .peerUpdate serverTickOrder < stepIndex .dataSend serverTickOrder ∧
     stepIndex .dataSend serverTickOrder < stepIndex .disconnectHandling serverTickOrder) := by
  decide

/-- C5: when the host observes a peer Connected for the first time,
exactly one registry entry is created for it and exactly one
ConnectedToHost is sent, to that peer only; a duplicate Connected
report for a still-registered peer changes nothing and sends nothing. -/
theorem host_connected_report_idempotent (s : MatchboxHost) (next : Entity)
    (p : PeerId) (hfresh : containsKey p s.client_entities = false) :
    processPeers s next [(p, .Connected)] =
      ({ s with client_entities := s.client_entities ++ [(p, next)] }, next + 1,
        [Event.spawn next p (uuid_to_u64_truncated p),
         Event.sendCtl .ConnectedToHost p]) ∧
    (∀ (s2 : MatchboxHost) (n2 : Entity), containsKey p s2.client_entities = true →
      processPeers s2 n2 [(p, .Connected)] = (s2, n2, [])) := by
  constructor
  · simp [processPeers, hfresh]
  · intro s2 n2 hreg
    simp [processPeers, hreg]

/-- Witness for C5: peer 7 connects to an empty host, then the duplicate
Connected report for the now-registered peer 7 is a no-op. -/
theorem host_connected_report_idempotent_witness :
    processPeers ⟨[], []⟩ 0 [(7, .Connected)] =
      (⟨[(7, 0)], []⟩, 1,
        [Event.spawn 0 7 (uuid_to_u64_truncated 7),
         Event.sendCtl .ConnectedToHost 7]) ∧
    processPeers ⟨[(7, 0)], []⟩ 1 [(7, .Connected)] = (⟨[(7, 0)], []⟩, 1, []) := by
  have h := host_connected_report_idempotent ⟨[], []⟩ 0 7 rfl
  exact ⟨h.1, h.2 ⟨[(7, 0)], []⟩ 1 rfl⟩

/-- C7 counterexample: for a host with peer 5 registered under entity
100 and queued for disconnection, the emitted events are the registry
removal, then the HostRequestsDisconnect send, then the entity despawn:
the send does not happen before the registry removal
(src/server.rs lines 183-194 remove the entry first). -/
theorem host_disconnect_removal_precedes_send :
    (send_packets ⟨[(5, 100)], [5]⟩ [(100, 5)] []).2 =
      [Event.removeEntry 5, Event.sendCtl .HostRequestsDisconnect 5,
        Event.despawn 100] ∧
    ¬ ((send_packets ⟨[(5, 100)], [5]⟩ [(100, 5)] []).2.findIdx
          (fun e => e == Event.sendCtl .HostRequestsDisconnect 5) <
        (send_packets ⟨[(5, 100)], [5]⟩ [(100, 5)] []).2.findIdx
          (fun e => e == Event.removeEntry 5)) := by
  decide

/-- C7 amended: a disconnect request naming a still-connected handle is
queued by received_disconnect, and in the same tick's send phase the
host removes the registry entry, then sends HostRequestsDisconnect to
that peer, then despawns the entity, without waiting for any
acknowledgement; the registry removal comes immediately before the send,
not after it. -/
theorem host_disconnect_same_tick (s : MatchboxHost)
    (conns : List (Entity × PeerId)) (p : PeerId) (e : Entity)
    (m2 : List (PeerId × Entity))
    (hq : s.clients_to_disconnect = [p])
    (hreg : lookupRemove p s.client_entities = some (e, m2)) :
    send_packets s conns [] =
      ({ client_entities := m2, clients_to_disconnect := [] },
        [Event.removeEntry p, Event.sendCtl .HostRequestsDisconnect p,
          Event.despawn e]) ∧
    (∀ (s0 : MatchboxHost) (ent : Entity), lookupKey ent conns = some p →
      received_disconnect conns [ent] s0 =
        { s0 with clients_to_disconnect := s0.clients_to_disconnect ++ [p] }) := by
  constructor
  · simp [send_packets, sendLoop, hq, drainDisconnects, hreg]
  · intro s0 ent h
    simp [received_disconnect, h]

/-- Witness for C7 amended: entity 100 holds the connection to peer 5;
the request queues peer 5, and the send phase removes, sends and
despawns in order. -/
theorem host_disconnect_same_tick_witness :
    send_packets ⟨[(5, 100)], [5]⟩ [(100, 5)] [] =
      (⟨[], []⟩, [Event.removeEntry 5, Event.sendCtl .HostRequestsDisconnect 5,
        Event.despawn 100]) ∧
    received_disconnect [(100, 5)] [100] ⟨[(5, 100)], []⟩ =
      ⟨[(5, 100)], [5]⟩ := by
  have h := host_disconnect_same_tick ⟨[(5, 100)], [5]⟩ [(100, 5)] 5 100 [] rfl rfl
  exact ⟨h.1, h.2 ⟨[(5, 100)], []⟩ 100 rfl⟩

/-- C8: when peer enumeration fails fatally on the host, that same tick
despawns every registered client entity, removes the MatchboxHost
resource, and sets the server state to Stopped. -/
theorem host_fatal_socket_teardown (w : HostWorld) (s : MatchboxHost)
    (hs : w.server = some s) :
    (hostPresenceTick w .fatal).1.server = none ∧
    (hostPresenceTick w .fatal).1.serverState = .Stopped ∧
    (hostPresenceTick w .fatal).2 =
      s.client_entities.map (fun kv => Event.despawn kv.2) := by
  simp [hostPresenceTick, hs, update_client_presence]

/-- Witness for C8: a running host with 3 registered peers loses its
socket; all 3 entities are despawned in that tick, the resource is gone
and the state is Stopped. -/
theorem host_fatal_socket_teardown_witness :
    (hostPresenceTick ⟨some ⟨[(1, 10), (2, 20), (3, 30)], []⟩, 31, .Running⟩
        .fatal).1.server = none ∧
    (hostPresenceTick ⟨some ⟨[(1, 10), (2, 20), (3, 30)], []⟩, 31, .Running⟩
        .fatal).1.serverState = .Stopped ∧
    (hostPresenceTick ⟨some ⟨[(1, 10), (2, 20), (3, 30)], []⟩, 31, .Running⟩
        .fatal).2 = [Event.despawn 10, Event.despawn 20, Event.despawn 30] := by
  have h := host_fatal_socket_teardown
    ⟨some ⟨[(1, 10), (2, 20), (3, 30)], []⟩, 31, .Running⟩
    ⟨[(1, 10), (2, 20), (3, 30)], []⟩ rfl
  exact ⟨h.1, h.2.1, h.2.2⟩

/-- Draining a queue holding exactly the registry's keys, in registry
order, empties the registry and emits the removal, send and despawn
events of every entry. -/
theorem drainDisconnects_all_keys (m : List (PeerId × Entity)) :
    drainDisconnects m (m.map Prod.fst) = ([], disconnectEvents m) := by
  induction m with
  | nil => simp [drainDisconnects, disconnectEvents]
  | cons kv rest ih =>
    obtain ⟨p, e⟩ := kv
    simp [drainDisconnects, lookupRemove, disconnectEvents, ih]

/-- C10: disconnect_all queues every registered peer; the next send
phase sends HostRequestsDisconnect to each of them and removes every
handle, leaving zero connected clients and an empty pending-disconnect
queue. -/
theorem disconnect_all_clears_registry (s : MatchboxHost)
    (conns : List (Entity × PeerId))
    (hq : s.clients_to_disconnect = []) :
    (s.disconnect_all).clients_to_disconnect = s.client_entities.map Prod.fst ∧
    send_packets s.disconnect_all conns [] =
      (⟨[], []⟩, disconnectEvents s.client_entities) ∧
    (send_packets s.disconnect_all conns []).1.connected_clients = 0 := by
  obtain ⟨m, q⟩ := s
  subst hq
  refine ⟨by simp [MatchboxHost.disconnect_all], ?_, ?_⟩
  · simp [MatchboxHost.disconnect_all, send_packets, sendLoop,
      drainDisconnects_all_keys]
  · simp [MatchboxHost.disconnect_all, send_packets, sendLoop,
      drainDisconnects_all_keys, MatchboxHost.connected_clients]

/-- Witness for C10: a host with peers 1 and 2 registered under entities
10 and 20 disconnects all; both receive HostRequestsDisconnect, both
handles are removed, and zero clients remain. -/
theorem disconnect_all_clears_registry_witness :
    (MatchboxHost.disconnect_all ⟨[(1, 10), (2, 20)], []⟩).clients_to_disconnect =
      [1, 2] ∧
    send_packets (MatchboxHost.disconnect_all ⟨[(1, 10), (2, 20)], []⟩) [] [] =
      (⟨[], []⟩,
        [Event.removeEntry 1, Event.sendCtl .HostRequestsDisconnect 1,
          Event.despawn 10, Event.removeEntry 2,
          Event.sendCtl .HostRequestsDisconnect 2, Event.despawn 20]) ∧
    (send_packets (MatchboxHost.disconnect_all ⟨[(1, 10), (2, 20)], []⟩)
        [] []).1.connected_clients = 0 := by
  have h := disconnect_all_clears_registry ⟨[(1, 10), (2, 20)], []⟩ [] rfl
  exact ⟨h.1, h.2.1, h.2.2⟩

end RepliconMatchbox
